import Mathlib

/-!
Verification development for the peertalk usbmux protocol client.

Shallow embedding of `src/protocol.rs` and `src/lib.rs`.  Machine integers
(`u32`, `u16`, `u64`, `i64`) are modelled as `Nat`/`Int` with explicit
`% 2^w` wherever Rust release-mode wrapping arithmetic or an `as` cast
occurs.  A byte-stream `Read`er is modelled as a `List Nat` of the bytes
still available; running out of bytes mid-read models the
`ErrorKind::UnexpectedEof` I/O error.  A Rust panic (a failed `unwrap`
or `assert!`) is modelled as `none` in an `Option`-wrapped result, kept
distinct from an `Err` return, which is modelled as `Except.error`.
The source's error-propagation idioms (`?` on a read, `ok_or(...)?` on a
field lookup, `?` on a `TryFrom`) are each embedded as one small named
step combinator applied in the same order as the source statements.
-/

namespace Peertalk

/-- Embeds `ProtocolError` from protocol.rs (lines 12-28).  The payload of
`IoError` (the underlying OS error) is irrelevant to the protocol logic and
is dropped. -/
inductive ProtocolError where
  | InvalidMessageType : String → ProtocolError
  | InvalidPlistEntry : ProtocolError
  | InvalidPlistEntryForKey : String → ProtocolError
  | InvalidPacketType : Nat → ProtocolError
  | InvalidProtocol : Nat → ProtocolError
  | InvalidReplyCode : Nat → ProtocolError
  | IoError : ProtocolError
  deriving DecidableEq

/-- Embeds `enum PacketType` (protocol.rs lines 66-77). -/
inductive PacketType where
  | Result | Connect | Listen | DeviceAdd | DeviceRemove | PlistPayload
  deriving DecidableEq

/-- Embeds `impl Into<u32> for PacketType` (protocol.rs lines 78-82):
the `repr(u32)` discriminant values. -/
def PacketType.toU32 : PacketType → Nat
  | .Result => 1
  | .Connect => 2
  | .Listen => 3
  | .DeviceAdd => 4
  | .DeviceRemove => 5
  | .PlistPayload => 8

/-- Embeds `impl TryFrom<u32> for PacketType` (protocol.rs lines 84-97). -/
def PacketType.try_from (value : Nat) : Except ProtocolError PacketType :=
  if value = 1 then .ok .Result
  else if value = 2 then .ok .Connect
  else if value = 3 then .ok .Listen
  else if value = 4 then .ok .DeviceAdd
  else if value = 5 then .ok .DeviceRemove
  else if value = 8 then .ok .PlistPayload
  else .error (.InvalidPacketType value)

/-- Embeds `enum Protocol` (protocol.rs lines 98-103). -/
inductive Protocol where
  | Binary | Plist
  deriving DecidableEq

/-- Embeds `impl Into<u32> for Protocol` (protocol.rs lines 104-108). -/
def Protocol.toU32 : Protocol → Nat
  | .Binary => 0
  | .Plist => 1

/-- Embeds `impl TryFrom<u32> for Protocol` (protocol.rs lines 109-118). -/
def Protocol.try_from (value : Nat) : Except ProtocolError Protocol :=
  if value = 0 then .ok .Binary
  else if value = 1 then .ok .Plist
  else .error (.InvalidProtocol value)

/-- `BASE_PACKET_SIZE` (protocol.rs line 61): `size_of::<u32>() * 4 = 16`. -/
def BASE_PACKET_SIZE : Nat := 16

/-- Embeds `struct Packet` (protocol.rs lines 149-155).  `size` and `tag`
are `u32` fields; `data` is the raw payload byte vector. -/
structure Packet where
  size : Nat
  protocol : Protocol
  packet_type : PacketType
  tag : Nat
  data : List Nat
  deriving DecidableEq

/-- Little-endian encoding of a `u32` value (`byteorder::LittleEndian`):
four bytes, least significant first.  Encodes `n % 2^32`. -/
def u32le (n : Nat) : List Nat :=
  [n % 256, n / 256 % 256, n / 65536 % 256, n / 16777216 % 256]

/-- Models `reader.read_u32::<LittleEndian>()` over the remaining byte
list: `none` is the `UnexpectedEof` I/O error when fewer than 4 bytes
remain, otherwise the value and the rest of the stream. -/
def readU32LE : List Nat → Option (Nat × List Nat)
  | b0 :: b1 :: b2 :: b3 :: rest =>
      some (b0 + 256 * b1 + 65536 * b2 + 16777216 * b3, rest)
  | _ => none

/-- Models `reader.read_exact(&mut payload)` for a buffer of `n` bytes:
`none` is the short-read I/O error when fewer than `n` bytes remain. -/
def readExact (n : Nat) (input : List Nat) : Option (List Nat × List Nat) :=
  if n ≤ input.length then some (input.take n, input.drop n) else none

/-- Embeds the `?` operator applied to a read (`reader.read_*(..)?`): a
failed read becomes the `IoError` return, a successful one feeds the
continuation. -/
def readStep {α β : Type} (r : Option β)
    (k : β → Option (Except ProtocolError α)) :
    Option (Except ProtocolError α) :=
  match r with
  | none => some (.error .IoError)
  | some v => k v

/-- Embeds the `?` operator applied to a `TryFrom` conversion: an
`Err` is returned as-is, an `Ok` value feeds the continuation. -/
def tryStep {α β : Type} (r : Except ProtocolError β)
    (k : β → Option (Except ProtocolError α)) :
    Option (Except ProtocolError α) :=
  match r with
  | .error e => some (.error e)
  | .ok v => k v

/-- Embeds the source's `d.get(key).and_then(conv).ok_or(
InvalidPlistEntryForKey(key))?` chain inside a fallible decoder that
returns a plain `Result`: a missing/unconvertible entry yields the
keyed error, a present one feeds the continuation. -/
def keyStep {α β : Type} (key : String) (r : Option β)
    (k : β → Except ProtocolError α) : Except ProtocolError α :=
  match r with
  | none => .error (.InvalidPlistEntryForKey key)
  | some v => k v

/-- Same `ok_or(InvalidPlistEntryForKey(key))?` chain inside a decoder
that can also panic (outer `Option`). -/
def keyStepP {α β : Type} (key : String) (r : Option β)
    (k : β → Option (Except ProtocolError α)) :
    Option (Except ProtocolError α) :=
  match r with
  | none => some (.error (.InvalidPlistEntryForKey key))
  | some v => k v

/-- `readStep` on a successful read feeds the continuation. -/
theorem readStep_some {α β : Type} (v : β)
    (k : β → Option (Except ProtocolError α)) :
    readStep (some v) k = k v := rfl

/-- `readStep` on a failed read is the `IoError` return. -/
theorem readStep_none {α β : Type}
    (k : β → Option (Except ProtocolError α)) :
    readStep (none : Option β) k = some (.error .IoError) := rfl

/-- `tryStep` on `Ok` feeds the continuation. -/
theorem tryStep_ok {α β : Type} (v : β)
    (k : β → Option (Except ProtocolError α)) :
    tryStep (.ok v) k = k v := rfl

/-- `tryStep` on `Err` returns the error. -/
theorem tryStep_error {α β : Type} (e : ProtocolError)
    (k : β → Option (Except ProtocolError α)) :
    tryStep (.error e) k = some (.error e) := rfl

/-- `keyStep` on a present entry feeds the continuation. -/
theorem keyStep_some {α β : Type} (key : String) (v : β)
    (k : β → Except ProtocolError α) :
    keyStep key (some v) k = k v := rfl

/-- `keyStep` on a missing entry yields the keyed error. -/
theorem keyStep_none {α β : Type} (key : String)
    (k : β → Except ProtocolError α) :
    keyStep key (none : Option β) k = .error (.InvalidPlistEntryForKey key) := rfl

/-- `keyStepP` on a present entry feeds the continuation. -/
theorem keyStepP_some {α β : Type} (key : String) (v : β)
    (k : β → Option (Except ProtocolError α)) :
    keyStepP key (some v) k = k v := rfl

/-- `keyStepP` on a missing entry yields the keyed error. -/
theorem keyStepP_none {α β : Type} (key : String)
    (k : β → Option (Except ProtocolError α)) :
    keyStepP key (none : Option β) k
      = some (.error (.InvalidPlistEntryForKey key)) := rfl

/-- Embeds `Packet::new` (protocol.rs lines 170-182).  The
`assert!(payload.len() < u32::max_value() as usize)` panic is the `none`
case; `size` is the wrapping `u32` sum `BASE_PACKET_SIZE + payload.len() as u32`. -/
def Packet.new (protocol : Protocol) (packet_type : PacketType) (tag : Nat)
    (payload : List Nat) : Option Packet :=
  if payload.length < 2 ^ 32 - 1 then
    some { size := (BASE_PACKET_SIZE + payload.length) % 2 ^ 32,
           protocol := protocol, packet_type := packet_type,
           tag := tag, data := payload }
  else none

/-- Embeds `Packet::write_into` (protocol.rs lines 183-197): four
little-endian `u32` header words followed by the raw payload bytes. -/
def Packet.write_into (p : Packet) : List Nat :=
  u32le p.size ++ u32le p.protocol.toU32 ++ u32le p.packet_type.toU32
    ++ u32le p.tag ++ p.data

/-- Last statements of `Packet::from_reader` (protocol.rs lines 214-216):
`Packet::new(..)` (whose failed assertion is the `none` panic) followed by
overwriting `packet.size` with the `size` word read from the wire. -/
def newPacketStep (size : Nat) (r : Option Packet) :
    Option (Except ProtocolError Packet) :=
  match r with
  | none => none
  | some pkt => some (.ok { pkt with size := size })

/-- `newPacketStep` on a packet that passes the assertion. -/
theorem newPacketStep_some (size : Nat) (pkt : Packet) :
    newPacketStep size (some pkt) = some (.ok { pkt with size := size }) := rfl

/-- Embeds `Packet::from_reader` (protocol.rs lines 198-217), one
`readStep`/`tryStep` per source statement in source order.  The
subtraction `size - BASE_PACKET_SIZE` is the wrapping `u32` subtraction
(release semantics), written `(size + 2^32 - 16) % 2^32`; the result is
`none` exactly when the inner `Packet::new` assertion panics. -/
def Packet.from_reader (input : List Nat) :
    Option (Except ProtocolError Packet) :=
  readStep (readU32LE input) fun (size, r1) =>
  readStep (readU32LE r1) fun (pv, r2) =>
  tryStep (Protocol.try_from pv) fun protocol =>
  readStep (readU32LE r2) fun (tv, r3) =>
  tryStep (PacketType.try_from tv) fun packet_type =>
  readStep (readU32LE r3) fun (tag, r4) =>
  let payload_size := (size + 2 ^ 32 - BASE_PACKET_SIZE) % 2 ^ 32
  readStep (if 0 < payload_size then readExact payload_size r4
            else some (([], r4) : List Nat × List Nat)) fun (data, _) =>
  newPacketStep size (Packet.new protocol packet_type tag data)

/-- Model of `plist::Value` (external library, consumed as a black box
mapping a hierarchical value tree to/from bytes).  A dictionary is an
association list in insertion order; an integer carries its mathematical
value (the library backs it by `i64` or `u64`, so representable values
lie in `[-2^63, 2^64)`). -/
inductive Value where
  | string : String → Value
  | integer : Int → Value
  | boolean : Bool → Value
  | array : List Value → Value
  | dictionary : List (String × Value) → Value
  | data : List Nat → Value

/-- Models `plist::Value::as_string`: `Some` exactly for a string value. -/
def Value.as_string : Value → Option String
  | .string s => some s
  | _ => none

/-- Models `plist::Value::as_unsigned_integer`: `Some` exactly for an
integer value representable as a `u64`. -/
def Value.as_unsigned_integer : Value → Option Nat
  | .integer n => if 0 ≤ n ∧ n < 2 ^ 64 then some n.toNat else none
  | _ => none

/-- Models `plist::Value::as_signed_integer`: `Some` exactly for an
integer value representable as an `i64`. -/
def Value.as_signed_integer : Value → Option Int
  | .integer n => if -(2 ^ 63) ≤ n ∧ n < 2 ^ 63 then some n else none
  | _ => none

/-- Models `plist::Dictionary::get`: the value stored under `key`, first
match in insertion order. -/
def dget (d : List (String × Value)) (key : String) : Option Value :=
  match d with
  | [] => none
  | (k, v) :: rest => if k = key then some v else dget rest key

/-- Embeds `enum MessageType` (protocol.rs lines 220-226). -/
inductive MessageType where
  | Paired | Result | Detached | Attached
  deriving DecidableEq

/-- Embeds `impl TryFrom<&Value> for MessageType` (protocol.rs lines
227-243). -/
def MessageType.try_from : Value → Except ProtocolError MessageType
  | .string s =>
      if s = "Paired" then .ok .Paired
      else if s = "Result" then .ok .Result
      else if s = "Attached" then .ok .Attached
      else if s = "Detached" then .ok .Detached
      else .error (.InvalidMessageType s)
  | _ => .error (.InvalidMessageType "Invalid PLIST type")

/-- `type DeviceId = u64` (protocol.rs line 246). -/
def DeviceId := Nat

/-- Embeds `enum ProductType` (protocol.rs lines 248-258); `Unknown`
carries the raw `u16` product id. -/
inductive ProductType where
  | IPhone | IPodTouch | IPad
  | Unknown : Nat → ProductType
  deriving DecidableEq

/-- Embeds `impl From<u16> for ProductType` (protocol.rs lines 259-268). -/
def ProductType.fromU16 (product_id : Nat) : ProductType :=
  if product_id = 0x12A8 then .IPhone
  else if product_id = 0x12AA then .IPodTouch
  else if product_id = 0x12AB then .IPad
  else .Unknown product_id

/-- Embeds `enum DeviceConnectionType` (protocol.rs lines 270-276). -/
inductive DeviceConnectionType where
  | USB
  | Unknown : String → DeviceConnectionType
  deriving DecidableEq

/-- Embeds `impl TryFrom<&Value> for DeviceConnectionType` (protocol.rs
lines 277-286). -/
def DeviceConnectionType.try_from (value : Value) :
    Except ProtocolError DeviceConnectionType :=
  match value.as_string with
  | some s => if s = "USB" then .ok .USB else .ok (.Unknown s)
  | none => .error (.InvalidPlistEntryForKey "ConnectionType")

/-- Embeds `struct DeviceAttachedInfo` (protocol.rs lines 288-300). -/
structure DeviceAttachedInfo where
  connection_type : DeviceConnectionType
  device_id : Nat
  location_id : Nat
  product_type : ProductType
  identifier : String
  deriving DecidableEq

/-- Embeds `impl TryFrom<&Value> for DeviceAttachedInfo` (protocol.rs
lines 302-340), one `keyStep` per source field in source order.  Each
field is the source's
`d.get(key).and_then(conversion).ok_or(InvalidPlistEntryForKey(key))?`
chain; the `ProductID` conversion truncates with the source's `i as u16`
cast, written `% 2^16`. -/
def DeviceAttachedInfo.try_from : Value → Except ProtocolError DeviceAttachedInfo
  | .dictionary d =>
    keyStep "ConnectionType" ((dget d "ConnectionType").bind
        (fun t => (DeviceConnectionType.try_from t).toOption)) fun connection_type =>
    keyStep "DeviceID" ((dget d "DeviceID").bind
        Value.as_unsigned_integer) fun device_id =>
    keyStep "LocationID" ((dget d "LocationID").bind
        Value.as_unsigned_integer) fun location_id =>
    keyStep "ProductID" ((dget d "ProductID").bind
        Value.as_unsigned_integer) fun pid =>
    keyStep "SerialNumber" ((dget d "SerialNumber").bind
        Value.as_string) fun identifier =>
    .ok { connection_type := connection_type,
          device_id := device_id, location_id := location_id,
          product_type := ProductType.fromU16 (pid % 2 ^ 16),
          identifier := identifier }
  | _ => .error .InvalidPlistEntry

/-- Embeds `enum DeviceEvent` (protocol.rs lines 341-350). -/
inductive DeviceEvent where
  | Attached : DeviceAttachedInfo → DeviceEvent
  | Detached : Nat → DeviceEvent
  | Paired : Nat → DeviceEvent
  deriving DecidableEq

/-- Embeds `impl TryFrom<&Value> for DeviceEvent` (protocol.rs lines
351-381).  The outer `Option` models panics: the source reads the
`MessageType` entry with `d.get(USB_MESSAGE_TYPE_KEY).unwrap()`, so a
dictionary without that key panics — embedded as the plain `Option.bind`,
whose `none` is the panic.  `DeviceID` is read (with its
`ok_or(InvalidPlistEntryForKey("DeviceID"))?`) before the dispatch on
the message type, as in the source. -/
def DeviceEvent.try_from : Value → Option (Except ProtocolError DeviceEvent)
  | .dictionary d =>
    (dget d "MessageType").bind fun mtv =>
    tryStep (MessageType.try_from mtv) fun msg_type =>
    keyStepP "DeviceID" ((dget d "DeviceID").bind
        Value.as_unsigned_integer) fun device_id =>
    match msg_type with
    | .Attached =>
        keyStepP "Properties" ((dget d "Properties").bind
            (fun p => (DeviceAttachedInfo.try_from p).toOption)) fun device_info =>
        some (.ok (.Attached device_info))
    | .Detached => some (.ok (.Detached device_id))
    | .Paired => some (.ok (.Paired device_id))
    | .Result => some (.error (.InvalidMessageType "Result"))
  | _ => some (.error .InvalidPlistEntry)

/-- Embeds `DeviceEvent::from_vec` (protocol.rs lines 382-388).  The
external parse `Value::from_reader(cursor)` is a black box, so the
argument is its outcome: `none` when the bytes are not a parseable
plist.  The source `.unwrap()`s that outcome, so an unparseable payload
panics (outer `none`) instead of yielding an error. -/
def DeviceEvent.from_vec (parsed : Option Value) :
    Option (Except ProtocolError DeviceEvent) :=
  match parsed with
  | none => none
  | some v => DeviceEvent.try_from v

/-- Embeds `struct ResultMessage` (protocol.rs line 391): the signed
integer handshake status code. -/
structure ResultMessage where
  code : Int
  deriving DecidableEq

/-- Embeds `impl TryFrom<&Value> for ResultMessage` (protocol.rs lines
398-412).  Note the source's error for a missing or non-signed-integer
`"Number"` entry carries the key name `"SerialNumber"`. -/
def ResultMessage.try_from : Value → Except ProtocolError ResultMessage
  | .dictionary d =>
    keyStep "SerialNumber" ((dget d "Number").bind
        Value.as_signed_integer) fun num =>
    .ok { code := num }
  | _ => .error .InvalidPlistEntry

/-- Embeds `struct Command` (protocol.rs lines 414-426): the outbound
plist payload; `port_number` is the optional `u16`, `device_id` the
optional `u64`. -/
structure Command where
  message_type : String
  prog_name : String
  client_version_string : String
  port_number : Option Nat
  device_id : Option Nat
  deriving DecidableEq

/-- Embeds `Command::new` (protocol.rs lines 428-436). -/
def Command.new (command : String) : Command :=
  { message_type := command, prog_name := "Peertalk Example",
    client_version_string := "1", port_number := none, device_id := none }

/-- Embeds `u16::to_be` on a little-endian host: the byte-swapped
representation of a `u16` value. -/
def u16_to_be (p : Nat) : Nat :=
  (p % 256) * 256 + p / 256 % 256

/-- Embeds `Command::listen` (protocol.rs lines 437-439). -/
def Command.listen : Command := Command.new "Listen"

/-- Embeds `Command::connect` (protocol.rs lines 440-445): stores
`port.to_be()` as the `PortNumber` value and `device_id` as `DeviceID`. -/
def Command.connect (port : Nat) (device_id : Nat) : Command :=
  { Command.new "Connect" with
    port_number := some (u16_to_be port), device_id := some device_id }

/-- Phase reached by `DeviceListener::start_listen` after the handshake
reply has been processed (lib.rs): the unconditional packet-reading
loop. -/
inductive ListenPhase where
  | eventLoop
  deriving DecidableEq

/-- Embeds the reply handling of `DeviceListener::start_listen` (lib.rs
lines 230-235).  The argument is the outcome of the external plist parse
of the reply packet's payload, which `ResultMessage::from_reader`
`.unwrap()`s (panic = `none`).  The decoded `ResultMessage` result is
bound to `res`, printed, and never examined: no branch exists on its
code, so for every parsed reply the listener proceeds to the event
loop.  No error return path exists (`start_listen` returns `()`), and
the crate's `Error` enum (lib.rs lines 11-16) has no `FailedToListen`
variant. -/
def start_listen_after_reply (parsedReply : Option Value) : Option ListenPhase :=
  match parsedReply with
  | none => none
  | some _ => some .eventLoop

/-! ### Helper lemmas -/

/-- Decoding the `repr(u32)` discriminant of a `Protocol` value (reduced
modulo `2^32` as the wire read does) recovers that value. -/
theorem protocol_try_from_toU32 (p : Protocol) :
    Protocol.try_from (Protocol.toU32 p % 2 ^ 32) = .ok p := by
  cases p <;> rfl

/-- Decoding the `repr(u32)` discriminant of a `PacketType` value (reduced
modulo `2^32` as the wire read does) recovers that value. -/
theorem packetType_try_from_toU32 (t : PacketType) :
    PacketType.try_from (PacketType.toU32 t % 2 ^ 32) = .ok t := by
  cases t <;> rfl

/-- Reading a little-endian `u32` back from its four encoded bytes yields
the encoded value modulo `2^32` and leaves the rest of the stream. -/
theorem readU32LE_u32le (n : Nat) (rest : List Nat) :
    readU32LE (u32le n ++ rest) = some (n % 2 ^ 32, rest) := by
  show some (n % 256 + 256 * (n / 256 % 256) + 65536 * (n / 65536 % 256)
      + 16777216 * (n / 16777216 % 256), rest) = some (n % 2 ^ 32, rest)
  have h : n % 256 + 256 * (n / 256 % 256) + 65536 * (n / 65536 % 256)
      + 16777216 * (n / 16777216 % 256) = n % 2 ^ 32 := by omega
  rw [h]

/-- Core of the packet codec round-trip: parsing the exact bytes written
for a packet built by `Packet::new` recovers that packet.  Shared by the
round-trip and the `total_size`-underflow analyses. -/
theorem write_read_aux (proto : Protocol) (pt : PacketType) (tag : Nat)
    (payload : List Nat) (pkt : Packet) (htag : tag < 2 ^ 32)
    (hnew : Packet.new proto pt tag payload = some pkt) :
    Packet.from_reader (Packet.write_into pkt) = some (.ok pkt) := by
  unfold Packet.new at hnew
  split at hnew
  case isFalse => exact absurd hnew (by simp)
  case isTrue hlen =>
  injection hnew with h
  subst h
  have hsz : (BASE_PACKET_SIZE + payload.length) % 2 ^ 32 % 2 ^ 32
      = (BASE_PACKET_SIZE + payload.length) % 2 ^ 32 :=
    Nat.mod_mod_of_dvd _ dvd_rfl
  have hps : ((BASE_PACKET_SIZE + payload.length) % 2 ^ 32 + 2 ^ 32
        - BASE_PACKET_SIZE) % 2 ^ 32 = payload.length := by
    unfold BASE_PACKET_SIZE
    omega
  simp only [Packet.write_into, Packet.from_reader, List.append_assoc,
    readU32LE_u32le, readStep_some, tryStep_ok, protocol_try_from_toU32,
    packetType_try_from_toU32, hsz, hps, Nat.mod_eq_of_lt htag]
  rcases Nat.eq_zero_or_pos payload.length with h0 | hpos
  · obtain rfl := List.length_eq_zero.mp h0
    norm_num [readStep_some, Packet.new, newPacketStep_some]
  · have hre : readExact payload.length payload = some (payload, []) := by
      simp [readExact]
    rw [if_pos hpos]
    simp only [hre, readStep_some]
    rw [Packet.new, if_pos hlen, newPacketStep_some]

/-- A frame whose header declares `total_size = 0` (valid `protocol = 1`,
`packet_type = 8`, `tag = 0`) followed by any `2^32 - 16` payload bytes is
accepted by `Packet::from_reader`: the wrapped subtraction makes it read
`2^32 - 16` bytes and succeed. -/
theorem from_reader_zero_header (data : List Nat)
    (hlen : data.length = 2 ^ 32 - 16) :
    Packet.from_reader (u32le 0 ++ u32le 1 ++ u32le 8 ++ u32le 0 ++ data)
      = some (.ok { size := 0, protocol := .Plist,
                    packet_type := .PlistPayload, tag := 0, data := data }) := by
  have hlenlt : data.length < 2 ^ 32 - 1 := by rw [hlen]; norm_num
  have hsz0 : (BASE_PACKET_SIZE + data.length) % 2 ^ 32 = 0 := by
    rw [hlen]; unfold BASE_PACKET_SIZE; norm_num
  have hnew : Packet.new .Plist .PlistPayload 0 data
      = some { size := 0, protocol := .Plist, packet_type := .PlistPayload,
               tag := 0, data := data } := by
    rw [Packet.new, if_pos hlenlt, hsz0]
  exact write_read_aux .Plist .PlistPayload 0 data _ (by norm_num) hnew

/-! ### Claim theorems -/

/-- Claim C1: packet codec round-trip.  For every packet built by
`Packet::new` from a known protocol, a known packet type, any `u32` tag
and any payload of length `< u32::MAX` (so `Packet::new` succeeds),
parsing with `Packet::from_reader` the exact bytes produced by
`Packet::write_into` yields a packet equal to the original: same `size`,
`protocol`, `packet_type`, `tag` and payload bytes. -/
theorem packet_roundtrip (proto : Protocol) (pt : PacketType) (tag : Nat)
    (payload : List Nat) (pkt : Packet) (htag : tag < 2 ^ 32)
    (hnew : Packet.new proto pt tag payload = some pkt) :
    Packet.from_reader (Packet.write_into pkt) = some (.ok pkt) :=
  write_read_aux proto pt tag payload pkt htag hnew

/-- Witness for C1: the round-trip at a concrete packet (protocol `Plist`,
type `PlistPayload`, tag 7, payload `[1, 2, 3]`). -/
theorem packet_roundtrip_witness :
    Packet.from_reader (Packet.write_into
        ⟨19, .Plist, .PlistPayload, 7, [1, 2, 3]⟩)
      = some (.ok ⟨19, .Plist, .PlistPayload, 7, [1, 2, 3]⟩) :=
  packet_roundtrip .Plist .PlistPayload 7 [1, 2, 3] _ (by decide) (by decide)

/-- Claim C2 is false of the code: `Packet::from_reader` has no check
that the declared `total_size` is at least 16, so the `u32` subtraction
`size - BASE_PACKET_SIZE` underflow-wraps.  At a frame declaring
`total_size = 0` with valid `protocol = 1` and `packet_type = 8`, the
wrapped payload size is `2^32 - 16`: with no further bytes the huge read
fails as a plain I/O error (not a validation error), and with `2^32 - 16`
bytes available the decode even *succeeds*, returning a packet — it does
not fail at all. -/
theorem from_reader_total_size_underflow :
    Packet.from_reader (u32le 0 ++ u32le 1 ++ u32le 8 ++ u32le 0)
      = some (.error .IoError)
    ∧ Packet.from_reader
        (u32le 0 ++ u32le 1 ++ u32le 8 ++ u32le 0
          ++ List.replicate (2 ^ 32 - 16) 0)
      = some (.ok { size := 0, protocol := .Plist,
                    packet_type := .PlistPayload, tag := 0,
                    data := List.replicate (2 ^ 32 - 16) 0 }) :=
  ⟨rfl, from_reader_zero_header (List.replicate (2 ^ 32 - 16) 0)
    (by rw [List.length_replicate])⟩

/-- Claim C3 is false of the code: device-event decoding can panic
instead of returning a `Result`.  `DeviceEvent::from_vec` `.unwrap()`s
the external plist parse, so unparseable payload bytes panic (`none`)
instead of yielding `InvalidPlistEntry`; `DeviceEvent::try_from`
`.unwrap()`s the `MessageType` lookup, so a dictionary lacking that
entry panics instead of yielding an error.  Only the non-dictionary-root
case behaves as claimed, yielding `InvalidPlistEntry`. -/
theorem device_event_decode_panics :
    DeviceEvent.from_vec none = none
    ∧ DeviceEvent.try_from (.dictionary [("DeviceID", .integer 3)]) = none
    ∧ DeviceEvent.try_from (.string "x") = some (.error .InvalidPlistEntry) :=
  ⟨rfl, rfl, rfl⟩

/-- Claim C4 is false of the code: when the `"Number"` entry is missing
(or not a signed integer), `ResultMessage::try_from` fails with
`InvalidPlistEntryForKey("SerialNumber")` — the key name is a slip, not
the offending key `"Number"`.  The success half of the claim does hold:
a signed-integer `"Number"` entry with value `n` decodes to
`ResultMessage(n)`. -/
theorem result_message_wrong_key :
    ResultMessage.try_from (.dictionary [])
      = .error (.InvalidPlistEntryForKey "SerialNumber")
    ∧ ResultMessage.try_from (.dictionary [("Number", .integer 5)]) = .ok ⟨5⟩
    ∧ "SerialNumber" ≠ "Number" :=
  ⟨rfl, rfl, by decide⟩

/-- Claim C5 is false of the code in `lib.rs`: the handshake reply is
decoded as a `ResultMessage` and only printed — `start_listen` has no
branch on the code, no error return path, and the crate's error type has
no `FailedToListen` variant, so a reply with non-zero code 1 still sends
the listener into its event loop and construction never fails. -/
theorem listener_ignores_reply_code :
    ResultMessage.try_from
        (.dictionary [("MessageType", .string "Result"),
                      ("Number", .integer 1)]) = .ok ⟨1⟩
    ∧ (1 : Int) ≠ 0
    ∧ ∀ v : Value, start_listen_after_reply (some v) = some .eventLoop :=
  ⟨rfl, by decide, fun _ => rfl⟩

/-- Claim C6: `Command::connect(p, d)` stores `p.to_be()` — the
byte-swapped (big-endian) representation of the `u16` port — as the
`PortNumber` value, and `d` as `DeviceID`; in particular for
`Command::connect(2345, 3)` the encoded port is `10505`, the byte swap
of `2345`, and not `2345` itself. -/
theorem command_connect_stores_to_be :
    (∀ p d : Nat, (Command.connect p d).port_number = some (u16_to_be p)
        ∧ (Command.connect p d).device_id = some d)
    ∧ (Command.connect 2345 3).port_number = some 10505
    ∧ u16_to_be 2345 = 10505
    ∧ (10505 : Nat) ≠ 2345 :=
  ⟨fun _ _ => ⟨rfl, rfl⟩, rfl, by decide, by decide⟩

/-- Claim C7: every `u32` outside `{0, 1}` fails protocol decoding with
`InvalidProtocol` carrying exactly that raw value, and every `u32`
outside `{1, 2, 3, 4, 5, 8}` fails packet-type decoding with
`InvalidPacketType` carrying exactly that raw value. -/
theorem invalid_protocol_packet_type (v w : Nat)
    (_hv32 : v < 2 ^ 32) (_hw32 : w < 2 ^ 32)
    (hv : v ≠ 0 ∧ v ≠ 1)
    (hw : w ≠ 1 ∧ w ≠ 2 ∧ w ≠ 3 ∧ w ≠ 4 ∧ w ≠ 5 ∧ w ≠ 8) :
    Protocol.try_from v = .error (.InvalidProtocol v)
    ∧ PacketType.try_from w = .error (.InvalidPacketType w) := by
  obtain ⟨hv0, hv1⟩ := hv
  obtain ⟨hw1, hw2, hw3, hw4, hw5, hw8⟩ := hw
  constructor
  · simp [Protocol.try_from, hv0, hv1]
  · simp [PacketType.try_from, hw1, hw2, hw3, hw4, hw5, hw8]

/-- Witness for C7: protocol value 2 yields `InvalidProtocol(2)` and
packet-type value 6 yields `InvalidPacketType(6)`. -/
theorem invalid_protocol_packet_type_witness :
    Protocol.try_from 2 = .error (.InvalidProtocol 2)
    ∧ PacketType.try_from 6 = .error (.InvalidPacketType 6) :=
  invalid_protocol_packet_type 2 6 (by decide) (by decide)
    ⟨by decide, by decide⟩
    ⟨by decide, by decide, by decide, by decide, by decide, by decide⟩

/-- Claim C8: dispatch of `DeviceEvent::try_from`.  A dictionary whose
`MessageType` is `"Detached"` (resp. `"Paired"`) with an
unsigned-integer `DeviceID` entry `id` decodes to `Detached(id)` (resp.
`Paired(id)`) from the top-level `DeviceID`; a dictionary whose
`MessageType` is `"Result"` yields an error at this decode site — never
a queued device event and never a panic; and a dictionary with any
valid `MessageType` but no unsigned-integer `DeviceID` entry fails with
`InvalidPlistEntryForKey("DeviceID")`. -/
theorem device_event_dispatch (d : List (String × Value)) (v : Value)
    (id : Nat) (mt : String) :
    (dget d "MessageType" = some (.string "Detached") →
      dget d "DeviceID" = some v → v.as_unsigned_integer = some id →
      DeviceEvent.try_from (.dictionary d) = some (.ok (.Detached id)))
    ∧ (dget d "MessageType" = some (.string "Paired") →
      dget d "DeviceID" = some v → v.as_unsigned_integer = some id →
      DeviceEvent.try_from (.dictionary d) = some (.ok (.Paired id)))
    ∧ (dget d "MessageType" = some (.string "Result") →
      ∃ e, DeviceEvent.try_from (.dictionary d) = some (.error e))
    ∧ (dget d "MessageType" = some (.string mt) →
      (mt = "Attached" ∨ mt = "Detached" ∨ mt = "Paired" ∨ mt = "Result") →
      (dget d "DeviceID").bind Value.as_unsigned_integer = none →
      DeviceEvent.try_from (.dictionary d)
        = some (.error (.InvalidPlistEntryForKey "DeviceID"))) := by
  refine ⟨?_, ?_, ?_, ?_⟩
  · intro h1 h2 h3
    have hdid : (dget d "DeviceID").bind Value.as_unsigned_integer = some id := by
      rw [h2, Option.some_bind, h3]
    have hmt : MessageType.try_from (.string "Detached") = .ok .Detached := rfl
    simp [DeviceEvent.try_from, h1, Option.some_bind, hmt, tryStep_ok, hdid,
      keyStepP_some]
  · intro h1 h2 h3
    have hdid : (dget d "DeviceID").bind Value.as_unsigned_integer = some id := by
      rw [h2, Option.some_bind, h3]
    have hmt : MessageType.try_from (.string "Paired") = .ok .Paired := rfl
    simp [DeviceEvent.try_from, h1, Option.some_bind, hmt, tryStep_ok, hdid,
      keyStepP_some]
  · intro h1
    have hmt : MessageType.try_from (.string "Result") = .ok .Result := rfl
    rcases hdid : (dget d "DeviceID").bind Value.as_unsigned_integer with _ | i
    · exact ⟨.InvalidPlistEntryForKey "DeviceID",
        by simp [DeviceEvent.try_from, h1, Option.some_bind, hmt, tryStep_ok,
          hdid, keyStepP_none]⟩
    · exact ⟨.InvalidMessageType "Result",
        by simp [DeviceEvent.try_from, h1, Option.some_bind, hmt, tryStep_ok,
          hdid, keyStepP_some]⟩
  · intro h1 hvalid hdid
    rcases hvalid with rfl | rfl | rfl | rfl
    · have hmt : MessageType.try_from (.string "Attached") = .ok .Attached := rfl
      simp [DeviceEvent.try_from, h1, Option.some_bind, hmt, tryStep_ok, hdid,
        keyStepP_none]
    · have hmt : MessageType.try_from (.string "Detached") = .ok .Detached := rfl
      simp [DeviceEvent.try_from, h1, Option.some_bind, hmt, tryStep_ok, hdid,
        keyStepP_none]
    · have hmt : MessageType.try_from (.string "Paired") = .ok .Paired := rfl
      simp [DeviceEvent.try_from, h1, Option.some_bind, hmt, tryStep_ok, hdid,
        keyStepP_none]
    · have hmt : MessageType.try_from (.string "Result") = .ok .Result := rfl
      simp [DeviceEvent.try_from, h1, Option.some_bind, hmt, tryStep_ok, hdid,
        keyStepP_none]

/-- Witness for C8: the spec's fixtures.
`{MessageType:"Detached", DeviceID:3}` decodes to `Detached(3)`;
`{MessageType:"Paired", DeviceID:3}` to `Paired(3)`;
`{MessageType:"Result", Number:0}` yields an error, so in particular it
is never a queued device event; and
`{MessageType:"Detached"}` without `DeviceID` fails with
`InvalidPlistEntryForKey("DeviceID")`. -/
theorem device_event_dispatch_witness :
    DeviceEvent.try_from
        (.dictionary [("MessageType", .string "Detached"),
                      ("DeviceID", .integer 3)])
      = some (.ok (.Detached 3))
    ∧ DeviceEvent.try_from
        (.dictionary [("MessageType", .string "Paired"),
                      ("DeviceID", .integer 3)])
      = some (.ok (.Paired 3))
    ∧ DeviceEvent.try_from
        (.dictionary [("MessageType", .string "Result"),
                      ("Number", .integer 0)])
      ≠ some (.ok (.Detached 0))
    ∧ DeviceEvent.try_from (.dictionary [("MessageType", .string "Detached")])
      = some (.error (.InvalidPlistEntryForKey "DeviceID")) := by
  refine ⟨?_, ?_, ?_, ?_⟩
  · exact (device_event_dispatch
      [("MessageType", .string "Detached"), ("DeviceID", .integer 3)]
      (.integer 3) 3 "Detached").1 rfl rfl rfl
  · exact (device_event_dispatch
      [("MessageType", .string "Paired"), ("DeviceID", .integer 3)]
      (.integer 3) 3 "Paired").2.1 rfl rfl rfl
  · obtain ⟨e, he⟩ := (device_event_dispatch
      [("MessageType", .string "Result"), ("Number", .integer 0)]
      (.integer 0) 0 "Result").2.2.1 rfl
    rw [he]
    simp
  · exact (device_event_dispatch
      [("MessageType", .string "Detached")]
      (.integer 0) 0 "Detached").2.2.2 rfl (Or.inr (Or.inl rfl)) rfl

/-- Claim C9: decoding the attach fixture.  The concrete `Attached`
plist with `Properties = {ConnectionType:"USB", DeviceID:3, LocationID:0,
ProductID:4779, SerialNumber:"00001011-000A111E0111001E"}` decodes to
`Attached` with `connection_type = USB`, `device_id = 3`,
`location_id = 0`, `product_type = IPad` and the serial as identifier;
any missing or mistyped field in `Properties` makes
`DeviceAttachedInfo::try_from` fail, and that failure makes the whole
`DeviceEvent::try_from` decode fail with an error
(`InvalidPlistEntryForKey("Properties")`), never a silently-dropped
event. -/
theorem attached_decode :
    DeviceEvent.try_from (.dictionary
        [("MessageType", .string "Attached"), ("DeviceID", .integer 3),
         ("Properties", .dictionary
           [("ConnectionType", .string "USB"), ("DeviceID", .integer 3),
            ("LocationID", .integer 0), ("ProductID", .integer 4779),
            ("SerialNumber", .string "00001011-000A111E0111001E")])])
      = some (.ok (.Attached
          ⟨.USB, 3, 0, .IPad, "00001011-000A111E0111001E"⟩))
    ∧ (∀ p : List (String × Value),
        ((dget p "ConnectionType").bind
            (fun t => (DeviceConnectionType.try_from t).toOption) = none
          ∨ (dget p "DeviceID").bind Value.as_unsigned_integer = none
          ∨ (dget p "LocationID").bind Value.as_unsigned_integer = none
          ∨ (dget p "ProductID").bind Value.as_unsigned_integer = none
          ∨ (dget p "SerialNumber").bind Value.as_string = none) →
        ∃ e, DeviceAttachedInfo.try_from (.dictionary p) = .error e)
    ∧ (∀ (d p : List (String × Value)) (id : Nat),
        dget d "MessageType" = some (.string "Attached") →
        (dget d "DeviceID").bind Value.as_unsigned_integer = some id →
        dget d "Properties" = some (.dictionary p) →
        (∃ e, DeviceAttachedInfo.try_from (.dictionary p) = .error e) →
        DeviceEvent.try_from (.dictionary d)
          = some (.error (.InvalidPlistEntryForKey "Properties"))) := by
  refine ⟨rfl, ?_, ?_⟩
  · intro p hfail
    rcases hc : (dget p "ConnectionType").bind
        (fun t => (DeviceConnectionType.try_from t).toOption) with _ | ct
    · exact ⟨.InvalidPlistEntryForKey "ConnectionType",
        by simp only [DeviceAttachedInfo.try_from, hc, keyStep_none]⟩
    rcases hd : (dget p "DeviceID").bind Value.as_unsigned_integer with _ | did
    · exact ⟨.InvalidPlistEntryForKey "DeviceID",
        by simp only [DeviceAttachedInfo.try_from, hc, keyStep_some, hd,
          keyStep_none]⟩
    rcases hl : (dget p "LocationID").bind Value.as_unsigned_integer with _ | lid
    · exact ⟨.InvalidPlistEntryForKey "LocationID",
        by simp only [DeviceAttachedInfo.try_from, hc, hd, keyStep_some, hl,
          keyStep_none]⟩
    rcases hq : (dget p "ProductID").bind Value.as_unsigned_integer with _ | pid
    · exact ⟨.InvalidPlistEntryForKey "ProductID",
        by simp only [DeviceAttachedInfo.try_from, hc, hd, hl, keyStep_some, hq,
          keyStep_none]⟩
    rcases hs : (dget p "SerialNumber").bind Value.as_string with _ | sn
    · exact ⟨.InvalidPlistEntryForKey "SerialNumber",
        by simp only [DeviceAttachedInfo.try_from, hc, hd, hl, hq, keyStep_some,
          hs, keyStep_none]⟩
    rcases hfail with h | h | h | h | h <;> simp_all
  · intro d p id h1 hid hp he
    obtain ⟨e, he⟩ := he
    have hprops : (dget d "Properties").bind
        (fun q => (DeviceAttachedInfo.try_from q).toOption) = none := by
      rw [hp, Option.some_bind, he]
      rfl
    have hmt : MessageType.try_from (.string "Attached") = .ok .Attached := rfl
    simp only [DeviceEvent.try_from, h1, Option.some_bind, hmt, tryStep_ok,
      hid, keyStepP_some, hprops, keyStepP_none]

/-- Witness for C9: the attach fixture whose `Properties` dictionary is
missing `SerialNumber` fails the whole decode with
`InvalidPlistEntryForKey("Properties")`. -/
theorem attached_decode_witness :
    DeviceEvent.try_from (.dictionary
        [("MessageType", .string "Attached"), ("DeviceID", .integer 3),
         ("Properties", .dictionary
           [("ConnectionType", .string "USB"), ("DeviceID", .integer 3),
            ("LocationID", .integer 0), ("ProductID", .integer 4779)])])
      = some (.error (.InvalidPlistEntryForKey "Properties")) :=
  attached_decode.2.2 _ _ 3 rfl rfl rfl
    (attached_decode.2.1 _ (Or.inr (Or.inr (Or.inr (Or.inr rfl)))))

/-- The `Properties` dictionary of the attach fixture, with the
`ProductID` integer value left as a parameter. -/
def propsWithProductID (v : Nat) : List (String × Value) :=
  [("ConnectionType", .string "USB"), ("DeviceID", .integer 3),
   ("LocationID", .integer 0), ("ProductID", .integer (v : Int)),
   ("SerialNumber", .string "00001011-000A111E0111001E")]

/-- Claim C10: product classification uses only the low 16 bits of the
plist `ProductID` value.  For every `u64` value `v` supplied as
`ProductID`, the decoded `product_type` is `ProductType::from(v % 2^16)`
(the source's `i as u16` cast); `0x12A8 ↦ IPhone`, `0x12AA ↦ IPodTouch`,
`0x12AB ↦ IPad`, every other low-16-bit value maps to `Unknown`; in
particular `ProductID = 0x112AB` is silently truncated and classified as
`IPad`. -/
theorem product_type_low16 (v : Nat) (hv : v < 2 ^ 64) :
    DeviceAttachedInfo.try_from (.dictionary (propsWithProductID v))
      = .ok { connection_type := .USB, device_id := 3, location_id := 0,
              product_type := ProductType.fromU16 (v % 2 ^ 16),
              identifier := "00001011-000A111E0111001E" }
    ∧ ProductType.fromU16 0x12A8 = .IPhone
    ∧ ProductType.fromU16 0x12AA = .IPodTouch
    ∧ ProductType.fromU16 0x12AB = .IPad
    ∧ (∀ w : Nat, w ≠ 0x12A8 → w ≠ 0x12AA → w ≠ 0x12AB →
        ProductType.fromU16 w = .Unknown w)
    ∧ DeviceAttachedInfo.try_from (.dictionary (propsWithProductID 0x112AB))
      = .ok { connection_type := .USB, device_id := 3, location_id := 0,
              product_type := .IPad,
              identifier := "00001011-000A111E0111001E" } := by
  refine ⟨?_, rfl, rfl, rfl, ?_, rfl⟩
  · have hpi : (dget (propsWithProductID v) "ProductID").bind
        Value.as_unsigned_integer = some v := by
      have h1 : dget (propsWithProductID v) "ProductID"
          = some (.integer (v : Int)) := rfl
      rw [h1, Option.some_bind]
      simp only [Value.as_unsigned_integer]
      rw [if_pos ⟨Int.natCast_nonneg v, by exact_mod_cast hv⟩,
        Int.toNat_natCast]
    have hct : (dget (propsWithProductID v) "ConnectionType").bind
        (fun t => (DeviceConnectionType.try_from t).toOption) = some .USB := rfl
    have hdi : (dget (propsWithProductID v) "DeviceID").bind
        Value.as_unsigned_integer = some 3 := rfl
    have hli : (dget (propsWithProductID v) "LocationID").bind
        Value.as_unsigned_integer = some 0 := rfl
    have hsn : (dget (propsWithProductID v) "SerialNumber").bind
        Value.as_string = some "00001011-000A111E0111001E" := rfl
    simp only [DeviceAttachedInfo.try_from, hct, hdi, hli, hpi, hsn,
      keyStep_some]
  · intro w h1 h2 h3
    simp [ProductType.fromU16, h1, h2, h3]

/-- Witness for C10: `ProductID = 70315 = 0x112AB` is truncated to
`0x12AB` and classified as `IPad`. -/
theorem product_type_low16_witness :
    DeviceAttachedInfo.try_from (.dictionary (propsWithProductID 70315))
      = .ok { connection_type := .USB, device_id := 3, location_id := 0,
              product_type := .IPad,
              identifier := "00001011-000A111E0111001E" } :=
  ((product_type_low16 70315 (by norm_num)).1).trans rfl

end Peertalk
